import Mathlib

/-
  Shallow embedding of cfn_clean/validate.py, the schema-conformance validator
  for CloudFormation-style templates, together with proofs about its
  type-inference and property-validation behaviour.

  Modelling conventions:
  * Python values (the JSON-like template data) are the inductive `Value`.
    A float's numeric payload is not tracked because the validator never
    inspects it (only the runtime type tag matters).
  * Python exceptions are modelled with `Except Err`: `Err.validation`
    is the ValidationError class of the source, `Err.fatal` stands for any
    other runtime exception (KeyError, TypeError, AttributeError, IndexError).
  * Python dicts are association lists in insertion order; dict lookups take
    the first matching key (real dicts have unique keys).
  * The class-level SPEC global (loaded from the resource specification JSON
    at import time) is passed explicitly as a `CfnSpec` argument.
-/

namespace CfnValidate

/-- A Python/JSON value as it occurs in a template. -/
inductive Value where
  | str (s : String)
  | bool (b : Bool)
  | int (n : Int)
  | float
  | null
  | list (xs : List Value)
  | dict (entries : List (String × Value))

/-- The result of get_value_type: either a bare string tag, the
NUMBER_TYPE tuple ("Double", "Float", "Integer"), or a (LIST_TYPE, t) pair. -/
inductive VType where
  | s (tag : String)
  | numbers
  | listOf (elem : VType)
deriving DecidableEq

/-- Python exceptions: ValidationError versus any other (fatal) exception. -/
inductive Err where
  | validation (msg : String)
  | fatal (msg : String)
deriving DecidableEq

def MAGIC_TYPE : String := "Benefit of the doubt"
def STRING_TYPE : String := "String"
def BOOLEAN_TYPE : String := "Boolean"
def JSON_TYPE : String := "Json"
def LIST_TYPE : String := "List"

/-- One resource record of the template: a dict with an optional "Type"
and an optional "Properties" member. -/
structure Resource where
  Typ : Option String
  Properties : Option (List (String × Value))

/-- The template ("source") being validated: its "Resources" dict and the
optional "Mappings" member (kept as a raw `Value` because FindInMap
subscripts into it generically). -/
structure Template where
  Resources : List (String × Resource)
  Mappings : Option Value

/-- An attribute descriptor from the resource specification: the four
optional fields consulted by the GetAtt comparison. -/
structure AttSpec where
  Typ : Option String
  PrimitiveType : Option String
  ItemType : Option String
  PrimitiveItemType : Option String

/-- A property schema entry: four optional type fields plus Required. -/
structure PropSpec where
  Typ : Option String
  PrimitiveType : Option String
  ItemType : Option String
  PrimitiveItemType : Option String
  Required : Bool

/-- An entry of SPEC["ResourceTypes"]. -/
structure ResourceTypeSpec where
  Properties : List (String × PropSpec)
  Attributes : Option (List (String × AttSpec))

/-- An entry of SPEC["PropertyTypes"]. -/
structure PropertyTypeSpec where
  Properties : List (String × PropSpec)

/-- The resource specification (the SPEC global of the source). -/
structure CfnSpec where
  ResourceTypes : List (String × ResourceTypeSpec)
  PropertyTypes : List (String × PropertyTypeSpec)

/-- Bool test: is `n` a prefix of `h` (on character lists)? -/
def isPrefixB : List Char → List Char → Bool
  | [], _ => true
  | _ :: _, [] => false
  | a :: as, b :: bs => a == b && isPrefixB as bs

/-- Bool test: does `n` occur contiguously inside `h`? -/
def isInfixB (n : List Char) : List Char → Bool
  | [] => n.isEmpty
  | h :: t => isPrefixB n (h :: t) || isInfixB n t

/-- Python `needle in hay` on strings: substring containment. -/
def strContains (needle hay : String) : Bool :=
  isInfixB needle.toList hay.toList

/-- Python `p == t` where p is a string and t a resolver result (a string
compares equal only to an equal string, never to a tuple). -/
def vtEqStr (t : VType) (p : String) : Bool :=
  match t with
  | .s tag => tag == p
  | _ => false

/-- Python `p in t` for a resolver result t: substring test on a string,
membership by equality on the NUMBER_TYPE tuple, and on a (List, e) pair
equality with "List" or with the element component. -/
def vtMem (p : String) (t : VType) : Bool :=
  match t with
  | .s tag => strContains p tag
  | .numbers => p == "Double" || p == "Float" || p == "Integer"
  | .listOf e => p == LIST_TYPE || vtEqStr e p

/-- Python list indexing xs[i] including negative indices. -/
def pyIndexList (xs : List Value) (i : Int) : Except Err Value :=
  let j := if i < 0 then i + xs.length else i
  if j < 0 then .error (.fatal "IndexError: list index out of range")
  else
    match xs.get? j.toNat with
    | some v => .ok v
    | none => .error (.fatal "IndexError: list index out of range")

/-- Python string indexing s[i] (yields a one-character string). -/
def pyIndexStr (s : String) (i : Int) : Except Err Value :=
  let cs := s.toList
  let j := if i < 0 then i + cs.length else i
  if j < 0 then .error (.fatal "IndexError: string index out of range")
  else
    match cs.get? j.toNat with
    | some c => .ok (.str (String.singleton c))
    | none => .error (.fatal "IndexError: string index out of range")

/-- Python subscript container[key] for the container shapes the validator
can reach. Dict keys in templates are strings, so a hashable non-string
key misses (KeyError) and an unhashable key raises TypeError. -/
def pySubscript (container key : Value) : Except Err Value :=
  match container with
  | .dict entries =>
      match key with
      | .str s =>
          match List.lookup s entries with
          | some v => .ok v
          | none => .error (.fatal ("KeyError: " ++ s))
      | .list _ => .error (.fatal "TypeError: unhashable type")
      | .dict _ => .error (.fatal "TypeError: unhashable type")
      | _ => .error (.fatal "KeyError")
  | .list xs =>
      match key with
      | .int i => pyIndexList xs i
      | .bool b => pyIndexList xs (if b then 1 else 0)
      | _ => .error (.fatal "TypeError: list indices must be integers")
  | .str s =>
      match key with
      | .int i => pyIndexStr s i
      | .bool b => pyIndexStr s (if b then 1 else 0)
      | _ => .error (.fatal "TypeError: string indices must be integers")
  | _ => .error (.fatal "TypeError: object is not subscriptable")

/-- get_value_type(value) with the `source` parameter at its default None.
Every recursive call of the original passes no source, so this function is
self-contained. The Fn::If rule indexes its argument with value[1] and
resolves the result; each shape of the argument is written out so the
recursion is structural (a one-character string resolves to String). With
source None, Fn::FindInMap subscripts None and raises TypeError. -/
def getValueTypeN : Value → Except Err VType
  | .dict [] => .error (.fatal "IndexError: list index out of range")
  | .dict [(k, v)] =>
      if k == "Fn::Base64" then .ok (.s STRING_TYPE)
      else if k == "Fn::If" then
        match v with
        | .list (_ :: b :: _) => getValueTypeN b
        | .list _ => .error (.fatal "IndexError: list index out of range")
        | .str s => (pyIndexStr s 1).map (fun _ => VType.s STRING_TYPE)
        | .dict _ => .error (.fatal "KeyError")
        | _ => .error (.fatal "TypeError: object is not subscriptable")
      else if k == "Fn::FindInMap" then
        .error (.fatal "TypeError: NoneType object is not subscriptable")
      else if k == "Fn::GetAZs" then .ok (.listOf (.s STRING_TYPE))
      else if k == "Fn::ImportValue" then .ok (.s MAGIC_TYPE)
      else if k == "Fn::Join" then .ok (.s STRING_TYPE)
      else if k == "Fn::Select" then .ok (.s MAGIC_TYPE)
      else if k == "Fn::Sub" then .ok (.s STRING_TYPE)
      else if k == "Ref" then .ok (.s MAGIC_TYPE)
      else .ok (.s JSON_TYPE)
  | .dict (_ :: _ :: _) => .ok (.s JSON_TYPE)
  | .list (x :: _) => (getValueTypeN x).map VType.listOf
  | .list [] => .error (.fatal "IndexError: list index out of range")
  | .str _ => .ok (.s STRING_TYPE)
  | .bool _ => .ok (.s BOOLEAN_TYPE)
  | .int _ => .ok VType.numbers
  | .float => .ok VType.numbers
  | .null => .error (.validation "WTF:")

/-- get_value_type(value, source). The only rule that reads `source` is
Fn::FindInMap, which evaluates source["Mappings"][value[0]][value[1]][value[2]]
and resolves the fetched value; all recursive calls of the original pass
source=None (the parameter default), hence go through `getValueTypeN`. -/
def get_value_type (value : Value) (source : Option Template) : Except Err VType :=
  match value with
  | .dict [] => .error (.fatal "IndexError: list index out of range")
  | .dict [(k, v)] =>
      if k == "Fn::Base64" then .ok (.s STRING_TYPE)
      else if k == "Fn::If" then
        match v with
        | .list (_ :: b :: _) => getValueTypeN b
        | .list _ => .error (.fatal "IndexError: list index out of range")
        | .str s => (pyIndexStr s 1).map (fun _ => VType.s STRING_TYPE)
        | .dict _ => .error (.fatal "KeyError")
        | _ => .error (.fatal "TypeError: object is not subscriptable")
      else if k == "Fn::FindInMap" then
        match source with
        | none => .error (.fatal "TypeError: NoneType object is not subscriptable")
        | some t =>
            match t.Mappings with
            | none => .error (.fatal "KeyError: Mappings")
            | some m => do
                let k0 ← pySubscript v (.int 0)
                let a ← pySubscript m k0
                let k1 ← pySubscript v (.int 1)
                let b ← pySubscript a k1
                let k2 ← pySubscript v (.int 2)
                let f ← pySubscript b k2
                getValueTypeN f
      else if k == "Fn::GetAZs" then .ok (.listOf (.s STRING_TYPE))
      else if k == "Fn::ImportValue" then .ok (.s MAGIC_TYPE)
      else if k == "Fn::Join" then .ok (.s STRING_TYPE)
      else if k == "Fn::Select" then .ok (.s MAGIC_TYPE)
      else if k == "Fn::Sub" then .ok (.s STRING_TYPE)
      else if k == "Ref" then .ok (.s MAGIC_TYPE)
      else .ok (.s JSON_TYPE)
  | .dict (_ :: _ :: _) => .ok (.s JSON_TYPE)
  | .list (x :: _) => (getValueTypeN x).map VType.listOf
  | .list [] => .error (.fatal "IndexError: list index out of range")
  | .str _ => .ok (.s STRING_TYPE)
  | .bool _ => .ok (.s BOOLEAN_TYPE)
  | .int _ => .ok VType.numbers
  | .float => .ok VType.numbers
  | .null => .error (.validation "WTF:")

mutual

/-- Python repr() of a value, as used inside containers by str(). The float
payload is not tracked, so floats print as a placeholder; no theorem
inspects the formatted text of a float. -/
def pyRepr : Value → String
  | .str s => "\x27" ++ s ++ "\x27"
  | .bool b => if b then "True" else "False"
  | .int n => toString n
  | .float => "0.0"
  | .null => "None"
  | .list xs => "[" ++ pyReprList xs ++ "]"
  | .dict es => "\x7b" ++ pyReprDict es ++ "\x7d"

/-- Comma-joined reprs of list elements. -/
def pyReprList : List Value → String
  | [] => ""
  | [x] => pyRepr x
  | x :: rest => pyRepr x ++ ", " ++ pyReprList rest

/-- Comma-joined reprs of dict entries. -/
def pyReprDict : List (String × Value) → String
  | [] => ""
  | [(k, v)] => "\x27" ++ k ++ "\x27: " ++ pyRepr v
  | (k, v) :: rest => "\x27" ++ k ++ "\x27: " ++ pyRepr v ++ ", " ++ pyReprDict rest

end

/-- Python str() of a value (a bare string at top level, repr inside). -/
def pyStr : Value → String
  | .str s => s
  | v => pyRepr v

/-- The message of the fail() closure of validate_property. -/
def invalidDataMsg (resource_name property_name : String) (value : Value)
    (expected : String) : String :=
  "Resource \"" ++ resource_name ++ "\" has invalid data in property \"" ++
    property_name ++ "\": " ++ pyStr value ++ " (" ++ expected ++ " expected)"

/-- The message raised when a GetAtt target type disagrees with the schema. -/
def getAttMismatchMsg (resource_name property_name : String) : String :=
  "Resource \"" ++ resource_name ++ "\" has invalid data in property \"" ++
    property_name ++ "\". (GetAtt returns wrong data type)"

/-- The message listing missing required properties. -/
def missingRequiredMsg (resource_name : String) (missing : List String) : String :=
  "Resource \"" ++ resource_name ++ "\" has missing required properties: " ++
    String.intercalate ", " missing

/-- The message listing unexpected properties. -/
def unexpectedPropsMsg (resource_name : String) (unexpected : List String) : String :=
  "Resource \"" ++ resource_name ++ "\" has unexpected properties: " ++
    String.intercalate ", " unexpected

/-- The att_type composite key "{Type}/{PrimitiveType}/{ItemType}/{PrimitiveItemType}"
built from an attribute descriptor, absent fields as empty strings. -/
def attCompositeKey (a : AttSpec) : String :=
  (a.Typ.getD "") ++ "/" ++ (a.PrimitiveType.getD "") ++ "/" ++
    (a.ItemType.getD "") ++ "/" ++ (a.PrimitiveItemType.getD "")

/-- The spec_type composite key built from a property schema entry's same
four fields, absent fields as empty strings. -/
def specCompositeKey (s : PropSpec) : String :=
  (s.Typ.getD "") ++ "/" ++ (s.PrimitiveType.getD "") ++ "/" ++
    (s.ItemType.getD "") ++ "/" ++ (s.PrimitiveItemType.getD "")

/-- get_att_spec(value, source): resource = source["Resources"][value[0]];
resource_type = resource["Type"]; then
SPEC["ResourceTypes"][resource_type].get("Attributes", {}).get(value[1]).
A missing resource name, missing "Type" member or unknown resource type
raises KeyError; an absent attribute name returns None (`Option.none`). -/
def get_att_spec (SPEC : CfnSpec) (value : Value) (source : Template) :
    Except Err (Option AttSpec) :=
  match pySubscript value (.int 0) with
  | .error e => .error e
  | .ok k0 =>
    match k0 with
    | .str s =>
      match List.lookup s source.Resources with
      | none => .error (.fatal ("KeyError: " ++ s))
      | some resource =>
        match resource.Typ with
        | none => .error (.fatal "KeyError: Type")
        | some resource_type =>
          match List.lookup resource_type SPEC.ResourceTypes with
          | none => .error (.fatal ("KeyError: " ++ resource_type))
          | some rts =>
            match pySubscript value (.int 1) with
            | .error e => .error e
            | .ok k1 =>
              match k1 with
              | .str a => .ok (List.lookup a (rts.Attributes.getD []))
              | .list _ => .error (.fatal "TypeError: unhashable type")
              | .dict _ => .error (.fatal "TypeError: unhashable type")
              | _ => .ok none
    | .list _ => .error (.fatal "TypeError: unhashable type")
    | .dict _ => .error (.fatal "TypeError: unhashable type")
    | _ => .error (.fatal "KeyError")

/-- The Fn::GetAtt branch of validate_property: compare the attribute
descriptor's composite key with the schema entry's. When get_att_spec
returned None (absent attribute), the att_spec.get("Type", "") call of the
original raises AttributeError on None. -/
def validateGetAtt (SPEC : CfnSpec) (resource_name property_name : String)
    (entries : List (String × Value)) (spec : PropSpec) (source : Template) :
    Except Err Unit :=
  match List.lookup "Fn::GetAtt" entries with
  | none => .error (.fatal "KeyError: Fn::GetAtt")
  | some gv =>
    match get_att_spec SPEC gv source with
    | .error e => .error e
    | .ok none => .error (.fatal "AttributeError: NoneType object has no attribute get")
    | .ok (some att_spec) =>
        if attCompositeKey att_spec != specCompositeKey spec then
          .error (.validation (getAttMismatchMsg resource_name property_name))
        else .ok ()

/-- required = [key for key, value in spec.items() if value["Required"]];
missing = [key for key in required if key not in properties]. -/
def requiredMissing (schema : List (String × PropSpec))
    (properties : List (String × Value)) : List String :=
  ((schema.filter (fun kv => kv.2.Required)).map Prod.fst).filter
    (fun k => !(properties.any (fun kv => kv.1 == k)))

/-- unexpected = [key for key in properties if key not in spec]. -/
def unexpectedKeys (schema : List (String × PropSpec))
    (properties : List (String × Value)) : List String :=
  (properties.map Prod.fst).filter (fun k => !(schema.any (fun kv => kv.1 == k)))

/-- Python `a < b` on strings: lexicographic by code points. -/
def strLtListB : List Char → List Char → Bool
  | [], [] => false
  | [], _ :: _ => true
  | _ :: _, [] => false
  | a :: as, b :: bs =>
      if a.toNat < b.toNat then true
      else if b.toNat < a.toNat then false
      else strLtListB as bs

/-- Python `a <= b` on strings (not b < a). -/
def strLeB (a b : String) : Bool := !(strLtListB b.toList a.toList)

/-- Insert a string into a (sorted) list, before the first element it is
less than or equal to. -/
def pyInsert (x : String) : List String → List String
  | [] => [x]
  | y :: ys => if strLeB x y then x :: y :: ys else y :: pyInsert x ys

/-- Python sorted() on strings: ascending lexicographic (by code points),
as a plain insertion sort. -/
def pySorted : List String → List String
  | [] => []
  | x :: xs => pyInsert x (pySorted xs)

/-- The two presence checks of validate_properties that precede its
per-property loop: missing required keys first (listed in schema order),
then unexpected keys (listed sorted). -/
def propBagChecks (resource_name : String) (properties : List (String × Value))
    (schema : List (String × PropSpec)) : Option Err :=
  let missing := requiredMissing schema properties
  if !missing.isEmpty then
    some (.validation (missingRequiredMsg resource_name missing))
  else
    let unexpected := unexpectedKeys schema properties
    if !unexpected.isEmpty then
      some (.validation (unexpectedPropsMsg resource_name (pySorted unexpected)))
    else none

/-- The non-GetAtt path of validate_property: resolve the value's type,
give indeterminate values the benefit of the doubt, check PrimitiveType
membership, and on a structured Type (other than the unchecked List/Map
sentinels) recurse into the nested schema. The recursion into
validate_properties is supplied by the caller as `recurse` (applied to the
nested schema) so that the mutual recursion below stays structural. -/
def generalCheck (SPEC : CfnSpec) (resource_name property_name : String)
    (value : Value) (spec : PropSpec) (source : Template)
    (recurse : List (String × PropSpec) → Except Err Unit) : Except Err Unit :=
  match get_value_type value (some source) with
  | .error e => .error e
  | .ok value_type =>
    if vtEqStr value_type MAGIC_TYPE then .ok ()
    else
      match spec.PrimitiveType with
      | some primitive_type =>
          if !(vtEqStr value_type primitive_type) && !(vtMem primitive_type value_type) then
            .error (.validation (invalidDataMsg resource_name property_name value primitive_type))
          else .ok ()
      | none =>
        match spec.Typ with
        | some custom_type =>
            if custom_type == "List" then .ok ()
            else if custom_type == "Map" then .ok ()
            else
              match List.lookup resource_name source.Resources with
              | none => .error (.fatal ("KeyError: " ++ resource_name))
              | some res =>
                match res.Typ with
                | none => .error (.fatal "KeyError: Type")
                | some rt =>
                  match List.lookup (rt ++ "." ++ custom_type) SPEC.PropertyTypes with
                  | none => .error (.fatal ("KeyError: " ++ rt ++ "." ++ custom_type))
                  | some pts => recurse pts.Properties
        | none => .ok ()

mutual

/-- validate_property(resource_name, property_name, value, spec, source).
A dict value containing the key "Fn::GetAtt" (whatever its other keys)
takes the GetAtt comparison branch; everything else goes through the
general type-resolution path. When a structured Type makes the original
recurse into validate_properties, a dict value supplies its entries as the
nested bag; for a non-dict value the original's properties.items() call
fails (the presence checks it would run first under Python's generic
membership semantics are collapsed into this failure; no theorem below
depends on that corner). -/
def validate_property (SPEC : CfnSpec) (resource_name property_name : String)
    (value : Value) (spec : PropSpec) (source : Template) : Except Err Unit :=
  match value with
  | .dict entries =>
      if entries.any (fun kv => kv.1 == "Fn::GetAtt") then
        validateGetAtt SPEC resource_name property_name entries spec source
      else
        generalCheck SPEC resource_name property_name (.dict entries) spec source
          (fun schema =>
            match propBagChecks resource_name entries schema with
            | some e => .error e
            | none => validateEach SPEC resource_name entries schema source)
  | other =>
      generalCheck SPEC resource_name property_name other spec source
        (fun _ => .error (.fatal "AttributeError: object has no attribute items"))

/-- The final loop of validate_properties: validate each property against
its schema entry, aborting on the first failure. -/
def validateEach (SPEC : CfnSpec) (resource_name : String)
    (items : List (String × Value)) (schema : List (String × PropSpec))
    (source : Template) : Except Err Unit :=
  match items with
  | [] => .ok ()
  | (property_name, v) :: rest =>
      match List.lookup property_name schema with
      | none => .error (.fatal ("KeyError: " ++ property_name))
      | some s =>
        match validate_property SPEC resource_name property_name v s source with
        | .error e => .error e
        | .ok _ => validateEach SPEC resource_name rest schema source

end

/-- validate_properties(resource_name, properties, spec, source): required
keys first (in schema order), then unexpected keys (sorted), then each
property in bag order. -/
def validate_properties (SPEC : CfnSpec) (resource_name : String)
    (properties : List (String × Value)) (schema : List (String × PropSpec))
    (source : Template) : Except Err Unit :=
  match propBagChecks resource_name properties schema with
  | some e => .error e
  | none => validateEach SPEC resource_name properties schema source


/-- Template used by C8: Mappings M -> A -> B -> "x". -/
def c8Template : Template :=
  { Resources := [],
    Mappings := some (.dict [("M", .dict [("A", .dict [("B", .str "x")])])]) }

/-- The Fn::FindInMap expression that C8 resolves. -/
def c8FindInMap : Value :=
  .dict [("Fn::FindInMap", .list [.str "M", .str "A", .str "B"])]


/-- Attribute descriptor fixture: a plain String attribute. -/
def exAttString : AttSpec :=
  { Typ := none, PrimitiveType := some "String",
    ItemType := none, PrimitiveItemType := none }

/-- Schema-entry fixture: an optional String-primitive property. -/
def exPropString : PropSpec :=
  { Typ := none, PrimitiveType := some "String",
    ItemType := none, PrimitiveItemType := none, Required := false }

/-- Schema-entry fixture: an optional Double-primitive property. -/
def exPropDouble : PropSpec :=
  { Typ := none, PrimitiveType := some "Double",
    ItemType := none, PrimitiveItemType := none, Required := false }

/-- Specification fixture: one resource type "T1" with a String property
"P1" and a String attribute "A1". -/
def exSpec : CfnSpec :=
  { ResourceTypes := [("T1",
      { Properties := [("P1", exPropString)],
        Attributes := some [("A1", exAttString)] })],
    PropertyTypes := [] }

/-- Template fixture: one resource "R1" of type "T1". -/
def exTemplate : Template :=
  { Resources := [("R1", { Typ := some "T1", Properties := some [] })],
    Mappings := none }


/-- Schema-entry fixture: a required String-primitive property. -/
def exReqProp : PropSpec :=
  { Typ := none, PrimitiveType := some "String",
    ItemType := none, PrimitiveItemType := none, Required := true }


/-- C1 counterexample value: a GetAtt of attribute "Att" on resource
"ResA". -/
def c1Value : Value := .dict [("Fn::GetAtt", .list [.str "ResA", .str "Att"])]

/-- C1 counterexample template: "ResA" declares the type "Custom::X",
which is unknown to the (empty) specification. -/
def c1Template : Template :=
  { Resources := [("ResA", { Typ := some "Custom::X", Properties := none })],
    Mappings := none }

/-- C1 counterexample schema entry: all four type fields absent. -/
def c1EmptyProp : PropSpec :=
  { Typ := none, PrimitiveType := none,
    ItemType := none, PrimitiveItemType := none, Required := false }

/-- The empty specification (no resource types, no property types). -/
def c1Spec : CfnSpec := { ResourceTypes := [], PropertyTypes := [] }

/-! ### Helper lemmas -/

/-- get_value_type with no source agrees with its None-specialisation. -/
theorem get_value_type_none (v : Value) : get_value_type v none = getValueTypeN v := by
  cases v with
  | dict entries =>
      match entries with
      | [] => rfl
      | [(k, x)] =>
          conv_rhs => rw [getValueTypeN.eq_def]
          rfl
      | a :: b :: rest => rfl
  | list xs => cases xs <;> rfl
  | str s => rfl
  | bool b => rfl
  | int n => rfl
  | float => rfl
  | null => rfl

/-- A substring of `t` is a substring of `s ++ t`. -/
theorem isInfixB_append (n s t : List Char) (h : isInfixB n t = true) :
    isInfixB n (s ++ t) = true := by
  induction s with
  | nil => simpa using h
  | cons c cs ih =>
      simp only [List.cons_append, isInfixB, Bool.or_eq_true]
      exact Or.inr ih

/-- String-level version of `isInfixB_append`. -/
theorem strContains_append_right (n s t : String) (h : strContains n t = true) :
    strContains n (s ++ t) = true := by
  unfold strContains at *
  have hd : (s ++ t).toList = s.toList ++ t.toList := by
    simp [String.toList, String.data_append]
  rw [hd]
  exact isInfixB_append _ _ _ h

/-- The GetAtt mismatch message always carries its identifying phrase. -/
theorem getAttMismatchMsg_contains (rn pn : String) :
    strContains "GetAtt returns wrong data type" (getAttMismatchMsg rn pn) = true := by
  unfold getAttMismatchMsg
  exact strContains_append_right _ _ _ rfl

/-! ### Claim theorems -/

/-- C4: the value type resolver sends a mapping with more than one key to
Json, a single-key mapping whose key is not one of the nine recognized
intrinsic-function keys to Json, a textual value to String, a boolean to
Boolean (never to the numeric group), and an integer or float to the
interchangeable numeric group (Double/Float/Integer). -/
theorem c4_value_type_rules (source : Option Template) :
    (∀ (e1 e2 : String × Value) (rest : List (String × Value)),
        get_value_type (.dict (e1 :: e2 :: rest)) source = .ok (.s JSON_TYPE)) ∧
    (∀ (k : String) (v : Value),
        k ∉ (["Fn::Base64", "Fn::If", "Fn::FindInMap", "Fn::GetAZs",
              "Fn::ImportValue", "Fn::Join", "Fn::Select", "Fn::Sub", "Ref"] : List String) →
        get_value_type (.dict [(k, v)]) source = .ok (.s JSON_TYPE)) ∧
    (∀ s, get_value_type (.str s) source = .ok (.s STRING_TYPE)) ∧
    (∀ b, get_value_type (.bool b) source = .ok (.s BOOLEAN_TYPE)) ∧
    VType.s BOOLEAN_TYPE ≠ VType.numbers ∧
    (∀ n : Int, get_value_type (.int n) source = .ok VType.numbers) ∧
    get_value_type .float source = .ok VType.numbers := by
  refine ⟨fun e1 e2 rest => rfl, ?_, fun s => rfl, fun b => rfl, by simp, fun n => rfl, rfl⟩
  intro k v hk
  simp only [List.mem_cons, List.not_mem_nil, or_false, not_or] at hk
  obtain ⟨h1, h2, h3, h4, h5, h6, h7, h8, h9⟩ := hk
  simp [get_value_type, h1, h2, h3, h4, h5, h6, h7, h8, h9]

/-- C4 witness: the rules evaluated at concrete inputs (the unrecognized
single key "Fn::GetAtt" resolves to Json). -/
theorem c4_value_type_rules_witness :
    get_value_type (.dict [("Fn::Madeup", .str "x")]) none = .ok (.s JSON_TYPE) :=
  (c4_value_type_rules none).2.1 "Fn::Madeup" (.str "x") (by decide)

/-- C6: a property value that is a single-key mapping on Ref, Fn::Select
or Fn::ImportValue resolves to the indeterminate marker and
validate_property succeeds immediately, whatever the schema entry says. -/
theorem c6_indeterminate_ok (SPEC : CfnSpec) (rn pn : String) (k : String) (v : Value)
    (spec : PropSpec) (source : Template)
    (hk : k = "Ref" ∨ k = "Fn::Select" ∨ k = "Fn::ImportValue") :
    get_value_type (.dict [(k, v)]) (some source) = .ok (.s MAGIC_TYPE) ∧
    validate_property SPEC rn pn (.dict [(k, v)]) spec source = .ok () := by
  rcases hk with h | h | h <;> subst h <;> exact ⟨rfl, rfl⟩

/-- C6 witness: a Ref value against a String-primitive schema entry. -/
theorem c6_indeterminate_ok_witness :
    validate_property ⟨[], []⟩ "R" "P" (.dict [("Ref", .str "x")])
      ⟨none, some "String", none, none, false⟩ ⟨[], none⟩ = .ok () :=
  (c6_indeterminate_ok ⟨[], []⟩ "R" "P" "Ref" (.str "x")
    ⟨none, some "String", none, none, false⟩ ⟨[], none⟩ (Or.inl rfl)).2

/-- C7: Fn::If with at least two arguments resolves to the type of its
second argument (resolved with no document), independently of the first
(condition) argument and of everything after the second. -/
theorem c7_fnif_second_arg (source : Option Template) (c v : Value) (rest : List Value) :
    get_value_type (.dict [("Fn::If", .list (c :: v :: rest))]) source = get_value_type v none ∧
    (∀ (c2 : Value) (rest2 : List Value),
      get_value_type (.dict [("Fn::If", .list (c2 :: v :: rest2))]) source =
        get_value_type (.dict [("Fn::If", .list (c :: v :: rest))]) source) := by
  have h : ∀ (c2 : Value) (rest2 : List Value),
      get_value_type (.dict [("Fn::If", .list (c2 :: v :: rest2))]) source =
        getValueTypeN v := fun _ _ => rfl
  refine ⟨?_, fun c2 rest2 => by rw [h, h]⟩
  rw [h, get_value_type_none]

/-- C8: the resolver's recursive calls drop the document. The embedded
template has Mappings M/A/B, so the Fn::FindInMap expression resolves to
String when it is the direct value; but as the first element of a list (or
as an Fn::If branch) the recursive call passes no source, and FindInMap
then subscripts None: a fatal TypeError, not a ValidationError. -/
theorem c8_recursion_drops_source :
    get_value_type c8FindInMap (some c8Template) = .ok (.s STRING_TYPE) ∧
    get_value_type (.list [c8FindInMap]) (some c8Template) =
      .error (.fatal "TypeError: NoneType object is not subscriptable") ∧
    get_value_type (.dict [("Fn::If", .list [.str "cond", c8FindInMap])]) (some c8Template) =
      .error (.fatal "TypeError: NoneType object is not subscriptable") :=
  ⟨rfl, rfl, rfl⟩

/-- C10: Fn::GetAtt is not in the resolver's intrinsic-function table, so
in any nested position (single-key mapping resolved directly, first
element of a list, second argument of Fn::If, or any key of a multi-key
mapping) it is classified as Json; the resolver takes no resource
specification, so the attribute's declared type is never consulted. -/
theorem c10_nested_getatt_json (source : Option Template) :
    (∀ gv, get_value_type (.dict [("Fn::GetAtt", gv)]) source = .ok (.s JSON_TYPE)) ∧
    (∀ (gv : Value) (rest : List Value),
        get_value_type (.list (.dict [("Fn::GetAtt", gv)] :: rest)) source =
          .ok (.listOf (.s JSON_TYPE))) ∧
    (∀ (c gv : Value) (rest : List Value),
        get_value_type (.dict [("Fn::If", .list (c :: .dict [("Fn::GetAtt", gv)] :: rest))])
          source = .ok (.s JSON_TYPE)) ∧
    (∀ (e1 e2 : String × Value) (rest : List (String × Value)),
        (e1 :: e2 :: rest).any (fun kv => kv.1 == "Fn::GetAtt") = true →
        get_value_type (.dict (e1 :: e2 :: rest)) source = .ok (.s JSON_TYPE)) :=
  ⟨fun gv => rfl, fun gv rest => by simp [get_value_type, getValueTypeN.eq_def, Except.map],
   fun c gv rest => by simp [get_value_type, getValueTypeN.eq_def, Except.map], fun e1 e2 rest _ => rfl⟩

/-- C10 witness: a multi-key mapping containing Fn::GetAtt resolves to Json. -/
theorem c10_nested_getatt_json_witness :
    get_value_type (.dict [("Fn::GetAtt", .str "a"), ("Other", .int 1)]) none =
      .ok (.s JSON_TYPE) :=
  (c10_nested_getatt_json none).2.2.2 ("Fn::GetAtt", .str "a") ("Other", .int 1) [] (by decide)

/-- C2: for a property whose value is the single-key mapping on Fn::GetAtt
(and whose attribute lookup yields a descriptor), validate_property skips
the general resolver and succeeds exactly when the attribute descriptor's
composite four-field key equals the schema entry's; on any difference it
raises a ValidationError whose message contains
"GetAtt returns wrong data type". -/
theorem c2_getatt_descriptor_comparison (SPEC : CfnSpec) (rn pn : String) (gv : Value)
    (spec : PropSpec) (source : Template) (att : AttSpec)
    (hatt : get_att_spec SPEC gv source = .ok (some att)) :
    (validate_property SPEC rn pn (.dict [("Fn::GetAtt", gv)]) spec source = .ok () ↔
      attCompositeKey att = specCompositeKey spec) ∧
    (attCompositeKey att ≠ specCompositeKey spec →
      validate_property SPEC rn pn (.dict [("Fn::GetAtt", gv)]) spec source =
        .error (.validation (getAttMismatchMsg rn pn)) ∧
      strContains "GetAtt returns wrong data type" (getAttMismatchMsg rn pn) = true) := by
  have hstep : validate_property SPEC rn pn (.dict [("Fn::GetAtt", gv)]) spec source =
      (match get_att_spec SPEC gv source with
       | Except.error e => Except.error e
       | Except.ok none =>
           Except.error (Err.fatal "AttributeError: NoneType object has no attribute get")
       | Except.ok (some att_spec) =>
           if attCompositeKey att_spec != specCompositeKey spec then
             Except.error (Err.validation (getAttMismatchMsg rn pn))
           else Except.ok ()) := rfl
  have hga : validate_property SPEC rn pn (.dict [("Fn::GetAtt", gv)]) spec source =
      if attCompositeKey att != specCompositeKey spec then
        Except.error (Err.validation (getAttMismatchMsg rn pn))
      else Except.ok () := by
    rw [hstep, hatt]
  constructor
  · rw [hga]
    by_cases heq : attCompositeKey att = specCompositeKey spec
    · simp [heq]
    · simp [heq]
  · intro hne
    have hb : (attCompositeKey att != specCompositeKey spec) = true := by
      simpa [bne_iff_ne] using hne
    refine ⟨?_, getAttMismatchMsg_contains rn pn⟩
    rw [hga]
    simp [hb]

/-- C2 witness: a GetAtt of the String attribute A1 against a
String-primitive schema entry succeeds. -/
theorem c2_getatt_descriptor_comparison_witness :
    validate_property exSpec "R1" "P1" (.dict [("Fn::GetAtt", .list [.str "R1", .str "A1"])])
      exPropString exTemplate = .ok () :=
  (c2_getatt_descriptor_comparison exSpec "R1" "P1" (.list [.str "R1", .str "A1"])
    exPropString exTemplate exAttString rfl).1.mpr rfl

/-- C5: against a numeric-primitive schema entry (Double, Float or
Integer) every numeric value is accepted (the tags are interchangeable),
while a Boolean-primitive entry rejects every numeric value and a
numeric-primitive entry rejects every boolean value, each with a
type-mismatch ValidationError. -/
theorem c5_numeric_tags_interchangeable (SPEC : CfnSpec) (rn pn : String)
    (spec : PropSpec) (source : Template) (p : String)
    (hp : spec.PrimitiveType = some p) :
    ((p = "Double" ∨ p = "Float" ∨ p = "Integer") →
      (∀ n : Int, validate_property SPEC rn pn (.int n) spec source = .ok ()) ∧
      validate_property SPEC rn pn .float spec source = .ok ()) ∧
    (p = "Boolean" →
      (∀ n : Int, validate_property SPEC rn pn (.int n) spec source =
        .error (.validation (invalidDataMsg rn pn (.int n) "Boolean"))) ∧
      validate_property SPEC rn pn .float spec source =
        .error (.validation (invalidDataMsg rn pn .float "Boolean"))) ∧
    ((p = "Double" ∨ p = "Float" ∨ p = "Integer") →
      ∀ b : Bool, validate_property SPEC rn pn (.bool b) spec source =
        .error (.validation (invalidDataMsg rn pn (.bool b) p))) := by
  refine ⟨?_, ?_, ?_⟩
  · rintro (h | h | h) <;> subst h <;>
      exact ⟨fun n => by
          simp [validate_property, generalCheck, get_value_type, vtEqStr, vtMem, hp, MAGIC_TYPE],
        by simp [validate_property, generalCheck, get_value_type, vtEqStr, vtMem, hp, MAGIC_TYPE]⟩
  · intro h
    subst h
    exact ⟨fun n => by
        simp [validate_property, generalCheck, get_value_type, vtEqStr, vtMem, hp,
          MAGIC_TYPE, strContains, isInfixB, isPrefixB],
      by simp [validate_property, generalCheck, get_value_type, vtEqStr, vtMem, hp,
        MAGIC_TYPE, strContains, isInfixB, isPrefixB]⟩
  · rintro (h | h | h) <;> subst h <;> intro b <;>
      simp [validate_property, generalCheck, get_value_type, vtEqStr, vtMem, hp,
        MAGIC_TYPE, BOOLEAN_TYPE, strContains, isInfixB, isPrefixB]

/-- C5 witness: an integer satisfies a Double schema entry. -/
theorem c5_numeric_tags_interchangeable_witness :
    validate_property exSpec "R1" "P1" (.int 10) exPropDouble exTemplate = .ok () :=
  ((c5_numeric_tags_interchangeable exSpec "R1" "P1" exPropDouble exTemplate "Double"
    rfl).1 (Or.inl rfl)).1 10

/-- C9: an Fn::GetAZs value resolves to the (List, String) pair, the
membership branch of the primitive match accepts the declared primitive
String as a component of that pair, and validate_property therefore
accepts the list-of-strings expression for a scalar String schema entry. -/
theorem c9_getazs_satisfies_string (SPEC : CfnSpec) (rn pn : String) (v : Value)
    (spec : PropSpec) (source : Template)
    (hp : spec.PrimitiveType = some "String") :
    get_value_type (.dict [("Fn::GetAZs", v)]) (some source) = .ok (.listOf (.s STRING_TYPE)) ∧
    vtMem "String" (.listOf (.s STRING_TYPE)) = true ∧
    validate_property SPEC rn pn (.dict [("Fn::GetAZs", v)]) spec source = .ok () := by
  refine ⟨rfl, rfl, ?_⟩
  simp [validate_property, generalCheck, get_value_type, vtEqStr, vtMem, hp,
    MAGIC_TYPE, STRING_TYPE, LIST_TYPE]

/-- C9 witness: Fn::GetAZs against the String-primitive fixture entry. -/
theorem c9_getazs_satisfies_string_witness :
    validate_property exSpec "R1" "P1" (.dict [("Fn::GetAZs", .str "")])
      exPropString exTemplate = .ok () :=
  (c9_getazs_satisfies_string exSpec "R1" "P1" (.str "") exPropString exTemplate rfl).2.2

/-- Lexicographic comparison of character lists is asymmetric. -/
theorem strLtListB_asymm (x y : List Char) (h : strLtListB x y = true) :
    strLtListB y x = false := by
  induction x generalizing y with
  | nil =>
      cases y with
      | nil => simp [strLtListB] at h
      | cons b bs => simp [strLtListB]
  | cons a as ih =>
      cases y with
      | nil => simp [strLtListB] at h
      | cons b bs =>
          simp only [strLtListB] at h ⊢
          by_cases h1 : a.toNat < b.toNat
          · simp [h1, Nat.lt_asymm h1]
          · by_cases h2 : b.toNat < a.toNat
            · simp [h1, h2] at h
            · simp only [h1, h2, if_false] at h ⊢
              exact ih bs h

/-- The Python string order is total. -/
theorem strLeB_total (a b : String) : strLeB a b = true ∨ strLeB b a = true := by
  by_cases h : strLtListB b.toList a.toList = true
  · right
    unfold strLeB
    rw [strLtListB_asymm _ _ h]
    rfl
  · left
    unfold strLeB
    rw [Bool.not_eq_true] at h
    rw [h]
    rfl

/-- pyInsert keeps a list sorted (as a chain of strLeB steps). -/
theorem chain_pyInsert (x : String) (l : List String)
    (h : List.Chain' (fun a b => strLeB a b = true) l) :
    List.Chain' (fun a b => strLeB a b = true) (pyInsert x l) := by
  induction l with
  | nil => simp [pyInsert]
  | cons y ys ih =>
      by_cases hxy : strLeB x y = true
      · have hc : List.Chain' (fun a b => strLeB a b = true) (x :: y :: ys) :=
          List.chain'_cons.mpr ⟨hxy, h⟩
        simp only [pyInsert]
        rw [if_pos hxy]
        exact hc
      · have hyx : strLeB y x = true := by
          rcases strLeB_total x y with h1 | h1
          · exact absurd h1 hxy
          · exact h1
        have hins := ih (List.Chain'.tail h)
        simp only [pyInsert]
        rw [if_neg hxy]
        rw [List.chain'_cons']
        refine ⟨?_, hins⟩
        intro z hz
        cases ys with
        | nil =>
            simp [pyInsert] at hz
            subst hz
            exact hyx
        | cons w ws =>
            by_cases hxw : strLeB x w = true
            · rw [show pyInsert x (w :: ws) = x :: w :: ws from by
                simp only [pyInsert]; rw [if_pos hxw]] at hz
              simp at hz
              subst hz
              exact hyx
            · rw [show pyInsert x (w :: ws) = w :: pyInsert x ws from by
                simp only [pyInsert]; rw [if_neg hxw]] at hz
              simp at hz
              subst hz
              exact (List.chain'_cons.mp h).1

/-- pyInsert only reorders: the result is a permutation of consing. -/
theorem pyInsert_perm (x : String) (l : List String) :
    (pyInsert x l).Perm (x :: l) := by
  induction l with
  | nil => simp [pyInsert]
  | cons y ys ih =>
      by_cases hxy : strLeB x y = true
      · simp only [pyInsert]
        rw [if_pos hxy]
      · simp only [pyInsert]
        rw [if_neg hxy]
        exact (ih.cons y).trans (List.Perm.swap x y ys)

/-- pySorted returns a sorted permutation of its input. -/
theorem pySorted_sorted_perm (l : List String) :
    List.Chain' (fun a b => strLeB a b = true) (pySorted l) ∧ (pySorted l).Perm l := by
  induction l with
  | nil => exact ⟨List.chain'_nil, List.Perm.refl _⟩
  | cons x xs ih =>
      exact ⟨chain_pyInsert x _ ih.1, (pyInsert_perm x (pySorted xs)).trans (ih.2.cons x)⟩

/-- C3: validate_properties fails first on missing required keys (listed
in schema order, and this error wins even when unknown keys are also
present), then on unexpected keys (listed in sorted order; pySorted is a
lexicographically sorted permutation), and otherwise runs the
per-property loop, whose first failure aborts and propagates unchanged. -/
theorem c3_validate_properties_order (SPEC : CfnSpec) (rn : String)
    (properties : List (String × Value)) (schema : List (String × PropSpec))
    (source : Template) :
    (requiredMissing schema properties ≠ [] →
      validate_properties SPEC rn properties schema source =
        .error (.validation (missingRequiredMsg rn (requiredMissing schema properties)))) ∧
    (requiredMissing schema properties = [] → unexpectedKeys schema properties ≠ [] →
      validate_properties SPEC rn properties schema source =
        .error (.validation (unexpectedPropsMsg rn (pySorted (unexpectedKeys schema properties))))) ∧
    (requiredMissing schema properties = [] → unexpectedKeys schema properties = [] →
      validate_properties SPEC rn properties schema source =
        validateEach SPEC rn properties schema source) ∧
    (∀ l : List String,
      List.Chain' (fun a b => strLeB a b = true) (pySorted l) ∧ (pySorted l).Perm l) ∧
    (∀ (pn : String) (v : Value) (rest : List (String × Value)) (s : PropSpec) (e : Err),
      List.lookup pn schema = some s →
      validate_property SPEC rn pn v s source = .error e →
      validateEach SPEC rn ((pn, v) :: rest) schema source = .error e) ∧
    (∀ (pn : String) (v : Value) (rest : List (String × Value)) (s : PropSpec),
      List.lookup pn schema = some s →
      validate_property SPEC rn pn v s source = .ok () →
      validateEach SPEC rn ((pn, v) :: rest) schema source =
        validateEach SPEC rn rest schema source) := by
  refine ⟨?_, ?_, ?_, pySorted_sorted_perm, ?_, ?_⟩
  · intro hm
    simp [validate_properties, propBagChecks, hm]
  · intro hm hu
    simp [validate_properties, propBagChecks, hm, hu]
  · intro hm hu
    simp [validate_properties, propBagChecks, hm, hu]
  · intro pn v rest s e hlook hvp
    simp [validateEach, hlook, hvp]
  · intro pn v rest s hlook hvp
    simp [validateEach, hlook, hvp]

/-- C3 witness: a schema with one required key "A" and an empty property
bag fails with the missing-required message. -/
theorem c3_validate_properties_order_witness :
    validate_properties exSpec "R" [] [("A", exReqProp)] exTemplate =
      .error (.validation "Resource \"R\" has missing required properties: A") :=
  (c3_validate_properties_order exSpec "R" [] [("A", exReqProp)] exTemplate).1
    (by decide)

/-- C1 counterexample: with an empty specification, the GetAtt target's
resource type "Custom::X" is unknown to the resource-type table. The
claim says the attribute lookup yields an all-empty descriptor and that
validation proceeds to the composite-key comparison (which, against the
all-empty schema entry, would succeed); the code instead stops with a
fatal KeyError, which is not a ValidationError. -/
theorem c1_counterexample :
    validate_property c1Spec "ResA" "P" c1Value c1EmptyProp c1Template =
      .error (.fatal "KeyError: Custom::X") ∧
    (match validate_property c1Spec "ResA" "P" c1Value c1EmptyProp c1Template with
     | .error (.fatal _) => true
     | _ => false) = true ∧
    attCompositeKey
        { Typ := none, PrimitiveType := none, ItemType := none, PrimitiveItemType := none } =
      specCompositeKey c1EmptyProp :=
  ⟨rfl, rfl, rfl⟩

/-- C1 as amended: when the Fn::GetAtt argument names a resource whose
declared type is unknown to the specification's resource-type table, the
lookup (and hence validate_property) fails with a fatal KeyError; when
the type is known but the attribute name is absent, get_att_spec returns
None and validate_property fails with a fatal AttributeError. Neither
case reaches the composite-key comparison or raises a ValidationError. -/
theorem c1_amended_lookup_miss_is_fatal (SPEC : CfnSpec) (rn pn rName attName : String)
    (spec : PropSpec) (source : Template) (res : Resource) (t : String)
    (hres : List.lookup rName source.Resources = some res)
    (ht : res.Typ = some t) :
    (List.lookup t SPEC.ResourceTypes = none →
      get_att_spec SPEC (.list [.str rName, .str attName]) source =
        .error (.fatal ("KeyError: " ++ t)) ∧
      validate_property SPEC rn pn
          (.dict [("Fn::GetAtt", .list [.str rName, .str attName])]) spec source =
        .error (.fatal ("KeyError: " ++ t))) ∧
    (∀ rts : ResourceTypeSpec, List.lookup t SPEC.ResourceTypes = some rts →
      List.lookup attName (rts.Attributes.getD []) = none →
      get_att_spec SPEC (.list [.str rName, .str attName]) source = .ok none ∧
      validate_property SPEC rn pn
          (.dict [("Fn::GetAtt", .list [.str rName, .str attName])]) spec source =
        .error (.fatal "AttributeError: NoneType object has no attribute get")) := by
  have h0 : get_att_spec SPEC (.list [.str rName, .str attName]) source =
      (match List.lookup rName source.Resources with
       | none => Except.error (Err.fatal ("KeyError: " ++ rName))
       | some resource =>
         match resource.Typ with
         | none => Except.error (Err.fatal "KeyError: Type")
         | some resource_type =>
           match List.lookup resource_type SPEC.ResourceTypes with
           | none => Except.error (Err.fatal ("KeyError: " ++ resource_type))
           | some rts => Except.ok (List.lookup attName (rts.Attributes.getD []))) := rfl
  have hv : validate_property SPEC rn pn
      (.dict [("Fn::GetAtt", .list [.str rName, .str attName])]) spec source =
      (match get_att_spec SPEC (.list [.str rName, .str attName]) source with
       | Except.error e => Except.error e
       | Except.ok none =>
           Except.error (Err.fatal "AttributeError: NoneType object has no attribute get")
       | Except.ok (some att_spec) =>
           if attCompositeKey att_spec != specCompositeKey spec then
             Except.error (Err.validation (getAttMismatchMsg rn pn))
           else Except.ok ()) := rfl
  constructor
  · intro hnone
    have hg : get_att_spec SPEC (.list [.str rName, .str attName]) source =
        .error (.fatal ("KeyError: " ++ t)) := by
      simp only [h0, hres, ht, hnone]
    refine ⟨hg, ?_⟩
    rw [hv, hg]
  · intro rts hrts hatt
    have hg : get_att_spec SPEC (.list [.str rName, .str attName]) source = .ok none := by
      simp only [h0, hres, ht, hrts, hatt]
    refine ⟨hg, ?_⟩
    rw [hv, hg]

/-- C1 amended witness: against the fixture specification (type "T1" with
only the attribute "A1"), a GetAtt of the absent attribute "NoSuch" ends
in the fatal AttributeError. -/
theorem c1_amended_lookup_miss_is_fatal_witness :
    validate_property exSpec "R1" "P"
      (.dict [("Fn::GetAtt", .list [.str "R1", .str "NoSuch"])]) exPropString exTemplate =
      .error (.fatal "AttributeError: NoneType object has no attribute get") :=
  ((c1_amended_lookup_miss_is_fatal exSpec "R1" "P" "R1" "NoSuch" exPropString exTemplate
      { Typ := some "T1", Properties := some [] } "T1" rfl rfl).2
    { Properties := [("P1", exPropString)], Attributes := some [("A1", exAttString)] }
    rfl rfl).2

end CfnValidate




